import Mathlib

/-!
Verification of the `logger` Go package (files `logger.go`, `set.go`).

The development shallowly embeds the package:
* a model of the fragment of Go `fmt` formatting the package uses
  (`Sprint`, `Sprintln`, `Sprintf` over string/int operands and one level
  of `[]interface{}` slices, which is all that the package ever builds);
* the duplicate-name set of `set.go`, with the MD5 digest abstracted as a
  parameter `md5Sum : String → Nat` (the proofs use only that it is a
  function, so they hold for the real digest);
* the package state (`enabled`, `logPath`, `programName`, `fileSet`,
  `stdlogger`) and the operations `Init` and `New`, with the external
  effects (`user.Current`, `time.Now`, `os.MkdirAll`, `os.Create`)
  supplied by an `Env` oracle;
* the `Logger` methods: tab-level control and the strings that each
  `Print*/Fatal*/Panic*` variant hands to the underlying go `log.Logger`.
-/

/-! ## Go `fmt` model

Go values that this package ever passes to `fmt`: strings, ints, and the
variadic `[]interface{}` slice holding such atoms (passed as a single
operand where the source forgets to spread it with `...`). -/

/-- An atomic Go value appearing in a variadic argument list. -/
inductive GoAtom where
  | str (s : String)
  | int (n : Int)
deriving DecidableEq

/-- A Go `fmt` operand: an atom, or a whole `[]interface{}` slice passed
as a single operand. -/
inductive GoVal where
  | atom (a : GoAtom)
  | slice (vs : List GoAtom)
deriving DecidableEq

/-- Default (`%v`) formatting of an atom. -/
def GoAtom.format : GoAtom → String
  | .str s => s
  | .int n => toString n

/-- Go type name of an atom, as printed in `%!(EXTRA ...)` diagnostics. -/
def GoAtom.typeName : GoAtom → String
  | .str _ => "string"
  | .int _ => "int"

/-- Default (`%v`) formatting of an operand; a slice prints as
`[elem0 elem1 ...]`. -/
def GoVal.format : GoVal → String
  | .atom a => a.format
  | .slice vs => "[" ++ String.intercalate " " (vs.map GoAtom.format) ++ "]"

/-- Whether an operand is a Go string (controls spacing in `fmt.Sprint`). -/
def GoVal.isStr : GoVal → Bool
  | .atom (.str _) => true
  | _ => false

/-- Go type name of an operand. -/
def GoVal.typeName : GoVal → String
  | .atom a => a.typeName
  | .slice _ => "[]interface \x7b\x7d"

/-- `fmt.Sprint` over the tail: a space separates adjacent operands when
neither is a string. -/
def goSprintAux : GoVal → List GoVal → String
  | v, [] => v.format
  | v, w :: rest =>
      v.format ++ (if v.isStr || w.isStr then "" else " ") ++ goSprintAux w rest

/-- Model of `fmt.Sprint`: operands formatted with their default formats,
spaces added between operands when neither is a string. -/
def goSprint : List GoVal → String
  | [] => ""
  | v :: rest => goSprintAux v rest

/-- Model of `fmt.Sprintln`: operands space-separated, newline appended. -/
def goSprintln (vs : List GoVal) : String :=
  String.intercalate " " (vs.map GoVal.format) ++ "\n"

/-- Formatting of an atom under a verb character, per the Go `fmt` rules
for the verbs this development evaluates (`d`, `s`, `v`). -/
def applyVerbAtom (c : Char) (a : GoAtom) : String :=
  match a with
  | .str s => if c = 's' || c = 'v' then s
      else "%!" ++ String.singleton c ++ "(string=" ++ s ++ ")"
  | .int n => if c = 'd' || c = 'v' then toString n
      else "%!" ++ String.singleton c ++ "(int=" ++ toString n ++ ")"

/-- Formatting of an operand under a verb: a slice applies the verb to
each element, bracketed and space-separated. -/
def applyVerb (c : Char) : GoVal → String
  | .atom a => applyVerbAtom c a
  | .slice vs => "[" ++ String.intercalate " " (vs.map (applyVerbAtom c)) ++ "]"

/-- Trailing diagnostic `fmt.Sprintf` emits for operands the format string
never consumed. -/
def extraOperands (vs : List GoVal) : String :=
  "%!(EXTRA " ++
    String.intercalate ", " (vs.map (fun v => v.typeName ++ "=" ++ v.format)) ++ ")"

/-- Recursive core of the `fmt.Sprintf` model, walking the format string
character by character against the remaining operands. -/
def goSprintfAux : List Char → List GoVal → String
  | [], [] => ""
  | [], v :: vs => extraOperands (v :: vs)
  | '%' :: '%' :: rest, vs => "%" ++ goSprintfAux rest vs
  | ['%'], [] => "%!(NOVERB)"
  | ['%'], v :: vs => "%!(NOVERB)" ++ extraOperands (v :: vs)
  | '%' :: c :: rest, [] =>
      "%!" ++ String.singleton c ++ "(MISSING)" ++ goSprintfAux rest []
  | '%' :: c :: rest, v :: vs => applyVerb c v ++ goSprintfAux rest vs
  | c :: rest, vs => String.singleton c ++ goSprintfAux rest vs

/-- Model of `fmt.Sprintf` (for the verbs the claims evaluate). -/
def goSprintf (format : String) (vs : List GoVal) : String :=
  goSprintfAux format.data vs

/-! ## `set.go`

Source:
```
type set map[[16]byte]string
var containsEmpty = false
func (s set) add(str string)      -- s[md5.Sum(str)] = str, "" sets the flag
func (s set) remove(str string)   -- s[md5.Sum(str)] = "",  "" clears the flag
func (s set) contains(str string) -- s[md5.Sum(str)] == str, "" reads the flag
```
The Go map is modelled as an association list keyed by the digest (a `Nat`
standing for the 16-byte MD5 value; reading an absent key yields the zero
value `""`, exactly as a Go map does); the digest function itself is a
parameter. -/

/-- Go map read: value stored under `k`, or the zero value `""`. -/
def mapGet (m : List (Nat × String)) (k : Nat) : String :=
  match m with
  | [] => ""
  | (k2, v2) :: rest => if k2 = k then v2 else mapGet rest k

/-- Go map write: replace the entry under `k`, or append one. -/
def mapSet (m : List (Nat × String)) (k : Nat) (v : String) : List (Nat × String) :=
  match m with
  | [] => [(k, v)]
  | (k2, v2) :: rest => if k2 = k then (k, v) :: rest else (k2, v2) :: mapSet rest k v

/-- The state of `set.go`: the hash-keyed table together with the
package-level `containsEmpty` flag that stands in for the empty string. -/
structure SetState where
  table : List (Nat × String)
  containsEmpty : Bool
deriving DecidableEq

/-- The empty set: no table entries, flag cleared. -/
def SetState.empty : SetState := ⟨[], false⟩

/-- `set.add`: the empty string sets the dedicated flag, any other string
is stored under its digest. -/
def SetState.add (md5Sum : String → Nat) (s : SetState) (str : String) : SetState :=
  if str = "" then { s with containsEmpty := true }
  else { s with table := mapSet s.table (md5Sum str) str }

/-- `set.remove`: the empty string clears the flag, any other string has
its digest entry overwritten with `""`. -/
def SetState.remove (md5Sum : String → Nat) (s : SetState) (str : String) : SetState :=
  if str = "" then { s with containsEmpty := false }
  else { s with table := mapSet s.table (md5Sum str) "" }

/-- `set.contains`: the empty string reads the flag, any other string
compares the stored value under its digest against itself. -/
def SetState.contains (md5Sum : String → Nat) (s : SetState) (str : String) : Bool :=
  if str = "" then s.containsEmpty
  else mapGet s.table (md5Sum str) == str

theorem mapGet_mapSet_self (m : List (Nat × String)) (k : Nat) (v : String) :
    mapGet (mapSet m k v) k = v := by
  induction m with
  | nil => simp [mapSet, mapGet]
  | cons hd tl ih =>
      obtain ⟨k2, v2⟩ := hd
      by_cases h : k2 = k
      · simp [mapSet, mapGet, h]
      · simp [mapSet, mapGet, h, ih]

theorem contains_add_self (md5Sum : String → Nat) (s : SetState) (str : String) :
    (s.add md5Sum str).contains md5Sum str = true := by
  by_cases h : str = ""
  · simp [SetState.add, SetState.contains, h]
  · simp [SetState.add, SetState.contains, h, mapGet_mapSet_self]

theorem contains_remove_self (md5Sum : String → Nat) (s : SetState) (str : String) :
    (s.remove md5Sum str).contains md5Sum str = false := by
  by_cases h : str = ""
  · simp [SetState.remove, SetState.contains, h]
  · simp [SetState.remove, SetState.contains, h, mapGet_mapSet_self]
    exact fun hc => h hc.symm

/-! ## `logger.go`: the `Logger` struct and tab-level control

The Go struct holds a `*log.Logger` writing to the created file and the
tab level; the embedding keeps the file path the `log.Logger` was opened
on. Go `int` is 64-bit here; arithmetic wraps, modelled explicitly. -/

/-- Two's-complement wraparound of 64-bit Go `int` arithmetic. -/
def int64Wrap (x : Int) : Int := (x + 2 ^ 63) % 2 ^ 64 - 2 ^ 63

/-- The `Logger` struct: the path of the bound file (standing for the
wrapped `*log.Logger`) and the `tabLevel` field. -/
structure LoggerT where
  filePath : String
  tabLevel : Int
deriving DecidableEq

/-- `Logger.SetTab`: negative input clamps the level to 0. -/
def LoggerT.SetTab (l : LoggerT) (i : Int) : LoggerT :=
  if i < 0 then { l with tabLevel := 0 } else { l with tabLevel := i }

/-- `Logger.IncTab`: `SetTab(l.tabLevel + 1)` in Go `int` arithmetic. -/
def LoggerT.IncTab (l : LoggerT) : LoggerT := l.SetTab (int64Wrap (l.tabLevel + 1))

/-- `Logger.DecTab`: `SetTab(l.tabLevel - 1)` in Go `int` arithmetic. -/
def LoggerT.DecTab (l : LoggerT) : LoggerT := l.SetTab (int64Wrap (l.tabLevel - 1))

/-- `Logger.TabLevel`: the current indentation level. -/
def LoggerT.TabLevel (l : LoggerT) : Int := l.tabLevel

/-- `Logger.tabs`: the string of `tabLevel` tab characters the helper
builds (note: never called by `print` in the source). -/
def LoggerT.tabs (l : LoggerT) : String :=
  String.mk (List.replicate l.tabLevel.toNat '\t')

/-- One indentation call on a `Logger`; `set i` carries the 64-bit value
the caller passes. -/
inductive TabOp where
  | inc
  | dec
  | set (i : Int)

/-- Run a sequence of indentation calls on a `Logger`. -/
def runTabOps (l : LoggerT) : List TabOp → LoggerT
  | [] => l
  | TabOp.inc :: rest => runTabOps l.IncTab rest
  | TabOp.dec :: rest => runTabOps l.DecTab rest
  | TabOp.set i :: rest => runTabOps (l.SetTab (int64Wrap i)) rest

/-- Reachable tab levels: a value a Go `int` can hold, and non-negative. -/
def tabInRange (l : LoggerT) : Prop := 0 ≤ l.tabLevel ∧ l.tabLevel < 2 ^ 63

theorem int64Wrap_mem (x : Int) : -2 ^ 63 ≤ int64Wrap x ∧ int64Wrap x < 2 ^ 63 := by
  unfold int64Wrap
  constructor
  · have h := Int.emod_nonneg (x + 2 ^ 63) (b := 2 ^ 64) (by norm_num)
    omega
  · have h := Int.emod_lt_of_pos (x + 2 ^ 63) (b := 2 ^ 64) (by norm_num)
    omega

theorem int64Wrap_eq_self (x : Int) (h1 : -2 ^ 63 ≤ x) (h2 : x < 2 ^ 63) :
    int64Wrap x = x := by
  unfold int64Wrap
  have : (x + 2 ^ 63) % 2 ^ 64 = x + 2 ^ 63 := Int.emod_eq_of_lt (by omega) (by omega)
  omega

theorem setTab_inRange (l : LoggerT) (i : Int) (h : i < 2 ^ 63) :
    tabInRange (l.SetTab i) := by
  unfold LoggerT.SetTab tabInRange
  by_cases hi : i < 0
  · simp [hi]
  · simp [hi]
    omega

theorem runTabOps_inRange (ops : List TabOp) :
    ∀ (l : LoggerT), tabInRange l → tabInRange (runTabOps l ops) := by
  induction ops with
  | nil => intro l h; exact h
  | cons op rest ih =>
      intro l h
      obtain ⟨h1, h2⟩ := h
      cases op with
      | inc =>
          simp only [runTabOps, LoggerT.IncTab]
          exact ih _ (setTab_inRange _ _ (int64Wrap_mem _).2)
      | dec =>
          simp only [runTabOps, LoggerT.DecTab]
          exact ih _ (setTab_inRange _ _ (int64Wrap_mem _).2)
      | set i =>
          simp only [runTabOps]
          exact ih _ (setTab_inRange _ _ (int64Wrap_mem _).2)

/-! ## Package state, `Init` and `New`

The package-level variables of `logger.go` form the state; the external
effects (`user.Current`, `time.Now`, `os.MkdirAll`, `os.Create`) are an
oracle `Env`. `filepath.Join` is modelled for clean, non-empty components
as interposing a single `/`. -/

/-- The errors `logger.go` constructs or propagates, by provenance. -/
inductive LogErr where
  | alreadyInitialized
  | userLookupFailed
  | mkdirFailed
  | notInitialized
  | duplicateLogger
  | createFailed
deriving DecidableEq

/-- The message of each error the package itself constructs with
`errors.New` (the rest propagate an external error). -/
def LogErr.message : LogErr → Option String
  | .alreadyInitialized => some "logger already initialized"
  | .notInitialized => some "Logger not initialized, unable to create new Logger object."
  | .duplicateLogger => some "Another logger is already logging to that file"
  | _ => none

/-- The fields of `time.Now()` that `Init` formats. -/
structure DateTime where
  year : Nat
  month : Nat
  day : Nat
  hour : Nat
  minute : Nat
  second : Nat
deriving DecidableEq

/-- `%0wd`: decimal digits left-padded with zeros to a minimum width. -/
def pad0 (w : Nat) (n : Nat) : String :=
  let s := toString n
  String.mk (List.replicate (w - s.length) '0') ++ s

/-- The run-folder name `Init` builds with
`fmt.Sprintf("%04d-%02d-%02d_%02d-%02d-%02d", ...)`. -/
def timestampStr (t : DateTime) : String :=
  pad0 4 t.year ++ "-" ++ pad0 2 t.month ++ "-" ++ pad0 2 t.day ++ "_" ++
    pad0 2 t.hour ++ "-" ++ pad0 2 t.minute ++ "-" ++ pad0 2 t.second

/-- `filepath.Join` on clean, non-empty components. -/
def joinPath : List String → String
  | [] => ""
  | [p] => p
  | p :: rest => p ++ "/" ++ joinPath rest

/-- Oracle for the external effects `Init` and `New` perform:
`user.Current` (home directory or failure), `time.Now`, whether
`os.MkdirAll` reports a non-`IsExist` error, and which `os.Create` calls
succeed (per logger name). -/
structure Env where
  homeDir : Option String
  now : DateTime
  mkdirOk : Bool
  createOk : String → Bool

/-- The package-level variables of `logger.go`. -/
structure MgrState where
  stdlogger : Option LoggerT
  logPath : String
  programName : String
  enabled : Bool
  fileSet : SetState
deriving DecidableEq

/-- The state at program start: `enabled = false`, empty file set. -/
def MgrState.initial : MgrState :=
  { stdlogger := none, logPath := "", programName := "", enabled := false,
    fileSet := SetState.empty }

/-- `newLogFile`/`New`: the path of the file a logger named `filename`
is bound to. -/
def newLogFilePath (st : MgrState) (filename : String) : String :=
  joinPath [st.logPath, filename ++ ".log"]

/-- `New`: fails before initialization, fails on a registered name, fails
when `os.Create` fails; otherwise registers the name and returns a
`Logger` at tab level 0 bound to `<logPath>/<filename>.log`. -/
def New (md5Sum : String → Nat) (env : Env) (st : MgrState) (filename : String) :
    Except LogErr LoggerT × MgrState :=
  if st.enabled = false then (Except.error LogErr.notInitialized, st)
  else if st.fileSet.contains md5Sum filename then (Except.error LogErr.duplicateLogger, st)
  else if env.createOk filename = false then (Except.error LogErr.createFailed, st)
  else (Except.ok { filePath := newLogFilePath st filename, tabLevel := 0 },
        { st with fileSet := st.fileSet.add md5Sum filename })

/-- The log path `Init` computes:
`filepath.Join(usr.HomeDir, "logs", programName, currRun)`. -/
def initLogPath (home progName : String) (t : DateTime) : String :=
  joinPath [home, "logs", progName, timestampStr t]

/-- `Init`: rejects a second call, resolves the home directory, builds
`<home>/logs/<programName>/<timestamp>` as the log path, creates the
directory tree, enables the package, and creates the `"std"` logger. -/
def Init (md5Sum : String → Nat) (env : Env) (st : MgrState) (progName : String) :
    Option LogErr × MgrState :=
  if st.enabled then (some LogErr.alreadyInitialized, st)
  else
    match env.homeDir with
    | none => (some LogErr.userLookupFailed, { st with programName := progName })
    | some home =>
        if env.mkdirOk = false then
          (some LogErr.mkdirFailed,
           { st with programName := progName,
                     logPath := initLogPath home progName env.now })
        else
          match New md5Sum env
              { st with programName := progName,
                        logPath := initLogPath home progName env.now,
                        enabled := true } "std" with
          | (Except.ok l, st4) => (none, { st4 with stdlogger := some l })
          | (Except.error e, st4) => (some e, { st4 with stdlogger := none })

/-! ## Message strings of the logging methods

Each `Print*/Fatal*/Panic*` variant builds one string and hands it (via
the `print` helper) to `gologger.Output`; the models below are those
strings. Note where the source passes the slice `v` itself instead of
spreading it with `v...`. -/

/-- `Logger.print` helper: `fmt.Sprint(v)` on the already-formatted
string, then `Output` — the message text is the string unchanged; the
tab level is never consulted. -/
def LoggerT.printStr (_l : LoggerT) (v : String) : String :=
  goSprint [GoVal.atom (GoAtom.str v)]

/-- `log.Logger.Output`: header (timestamp and caller annotation), the
message, and a newline when the message lacks one. -/
def outputLine (header s : String) : String :=
  header ++ s ++ (if s.endsWith "\n" then "" else "\n")

/-- `Logger.Print`: `fmt.Sprint(v)` — the slice as one operand. -/
def LoggerT.PrintMsg (l : LoggerT) (v : List GoAtom) : String :=
  l.printStr (goSprint [GoVal.slice v])

/-- `Logger.Printf`: `fmt.Sprintf(format, v...)`. -/
def LoggerT.PrintfMsg (l : LoggerT) (format : String) (v : List GoAtom) : String :=
  l.printStr (goSprintf format (v.map GoVal.atom))

/-- `Logger.Println`: `fmt.Sprintln(v...)`. -/
def LoggerT.PrintlnMsg (l : LoggerT) (v : List GoAtom) : String :=
  l.printStr (goSprintln (v.map GoVal.atom))

/-- `Logger.Fatal`: `fmt.Sprint(v)` — the slice as one operand. -/
def LoggerT.FatalMsg (l : LoggerT) (v : List GoAtom) : String :=
  l.printStr (goSprint [GoVal.slice v])

/-- `Logger.Fatalf`: `fmt.Sprintf(format, v)` — the slice is passed as a
single operand, not spread. -/
def LoggerT.FatalfMsg (l : LoggerT) (format : String) (v : List GoAtom) : String :=
  l.printStr (goSprintf format [GoVal.slice v])

/-- `Logger.Fatalln`: `fmt.Sprintln(v...)`. -/
def LoggerT.FatallnMsg (l : LoggerT) (v : List GoAtom) : String :=
  l.printStr (goSprintln (v.map GoVal.atom))

/-- `Logger.Panic`: `fmt.Sprint(v)` — the slice as one operand. -/
def LoggerT.PanicMsg (l : LoggerT) (v : List GoAtom) : String :=
  l.printStr (goSprint [GoVal.slice v])

/-- `Logger.Panicf`: `fmt.Sprintf(format, v...)`. -/
def LoggerT.PanicfMsg (l : LoggerT) (format : String) (v : List GoAtom) : String :=
  l.printStr (goSprintf format (v.map GoVal.atom))

/-- `Logger.Panicln`: `fmt.Sprintln(v...)`. -/
def LoggerT.PaniclnMsg (l : LoggerT) (v : List GoAtom) : String :=
  l.printStr (goSprintln (v.map GoVal.atom))

/-- Package-level `Print` on the standard logger: `fmt.Sprint(v)`. -/
def pkgPrintMsg (std : LoggerT) (v : List GoAtom) : String :=
  std.printStr (goSprint [GoVal.slice v])

/-- Package-level `Printf`: `fmt.Sprintf(format, v...)`. -/
def pkgPrintfMsg (std : LoggerT) (format : String) (v : List GoAtom) : String :=
  std.printStr (goSprintf format (v.map GoVal.atom))

/-- Package-level `Println`: `fmt.Sprintln(v...)`. -/
def pkgPrintlnMsg (std : LoggerT) (v : List GoAtom) : String :=
  std.printStr (goSprintln (v.map GoVal.atom))

/-- Package-level `Fatal`: `fmt.Sprint(v)`. -/
def pkgFatalMsg (std : LoggerT) (v : List GoAtom) : String :=
  std.printStr (goSprint [GoVal.slice v])

/-- Package-level `Fatalf`: `fmt.Sprintf(format, v...)` — spread. -/
def pkgFatalfMsg (std : LoggerT) (format : String) (v : List GoAtom) : String :=
  std.printStr (goSprintf format (v.map GoVal.atom))

/-- Package-level `Fatalln`: `fmt.Sprintln(v...)`. -/
def pkgFatallnMsg (std : LoggerT) (v : List GoAtom) : String :=
  std.printStr (goSprintln (v.map GoVal.atom))

/-- Package-level `Panic`: `fmt.Sprint(v)`. -/
def pkgPanicMsg (std : LoggerT) (v : List GoAtom) : String :=
  std.printStr (goSprint [GoVal.slice v])

/-- Package-level `Panicf`: `fmt.Sprintf(format, v...)`. -/
def pkgPanicfMsg (std : LoggerT) (format : String) (v : List GoAtom) : String :=
  std.printStr (goSprintf format (v.map GoVal.atom))

/-- Package-level `Panicln`: `fmt.Sprintln(v...)`. -/
def pkgPaniclnMsg (std : LoggerT) (v : List GoAtom) : String :=
  std.printStr (goSprintln (v.map GoVal.atom))

/-! ## Spec-side layout definitions (for the filesystem-layout claim) -/

/-- The spec's root-directory layout:
`<home>/logs/<programName>/<YYYY-MM-DD_HH-MM-SS>`. -/
def specRootPath (home progName : String) (t : DateTime) : String :=
  home ++ "/logs/" ++ progName ++ "/" ++ timestampStr t

/-- The spec's log-file layout: `<root>/<loggerName>.log`. -/
def specLogFilePath (home progName : String) (t : DateTime) (loggerName : String) : String :=
  specRootPath home progName t ++ "/" ++ loggerName ++ ".log"

/-- A concrete standard logger used to evaluate message-level claims. -/
def std0 : LoggerT := { filePath := "std", tabLevel := 0 }

/-! ## Destructors for the success paths of `New` and `Init` -/

theorem new_ok_dest (md5Sum : String → Nat) (env : Env) (st st2 : MgrState)
    (n : String) (l : LoggerT)
    (h : New md5Sum env st n = (Except.ok l, st2)) :
    st.enabled = true ∧ st.fileSet.contains md5Sum n = false ∧
    l = { filePath := newLogFilePath st n, tabLevel := 0 } ∧
    st2 = { st with fileSet := st.fileSet.add md5Sum n } := by
  by_cases h1 : st.enabled = false
  · simp [New, h1] at h
  · by_cases h2 : st.fileSet.contains md5Sum n = true
    · simp [New, h1, h2] at h
    · by_cases h3 : env.createOk n = false
      · simp [New, h1, h2, h3] at h
      · simp only [New, if_neg h1, if_neg h2, if_neg h3] at h
        injection h with hl hst
        injection hl with hl
        exact ⟨by simpa using h1, by simpa using h2, hl.symm, hst.symm⟩

theorem new_err_dest (md5Sum : String → Nat) (env : Env) (st st2 : MgrState)
    (n : String) (e : LogErr)
    (h : New md5Sum env st n = (Except.error e, st2)) : st2 = st := by
  by_cases h1 : st.enabled = false
  · simp only [New, if_pos h1] at h
    injection h with _ hst
    exact hst.symm
  · by_cases h2 : st.fileSet.contains md5Sum n = true
    · simp only [New, if_neg h1, if_pos h2] at h
      injection h with _ hst
      exact hst.symm
    · by_cases h3 : env.createOk n = false
      · simp only [New, if_neg h1, if_neg h2, if_pos h3] at h
        injection h with _ hst
        exact hst.symm
      · simp [New, if_neg h1, if_neg h2, if_neg h3] at h

/-- The state a successful `Init` produces, given the resolved home
directory (used to phrase the destructor below). -/
def initDoneState (md5Sum : String → Nat) (st : MgrState) (p home : String)
    (t : DateTime) : MgrState :=
  { stdlogger := some { filePath := joinPath [initLogPath home p t, "std.log"],
                        tabLevel := 0 },
    logPath := initLogPath home p t,
    programName := p, enabled := true,
    fileSet := st.fileSet.add md5Sum "std" }

theorem init_ok_dest (md5Sum : String → Nat) (env : Env) (st st' : MgrState) (p : String)
    (h : Init md5Sum env st p = (none, st')) :
    ∃ home, env.homeDir = some home ∧
      st' = initDoneState md5Sum st p home env.now := by
  by_cases hen : st.enabled
  · simp [Init, hen] at h
  · cases henv : env.homeDir with
    | none => simp [Init, hen, henv] at h
    | some home =>
        by_cases hmk : env.mkdirOk = false
        · simp [Init, hen, henv, hmk] at h
        · refine ⟨home, rfl, ?_⟩
          simp only [Init, hen, henv, hmk, if_neg, if_false] at h
          rcases hnew : New md5Sum env
              { st with programName := p,
                        logPath := initLogPath home p env.now,
                        enabled := true } "std" with ⟨res, st4⟩
          rw [hnew] at h
          cases res with
          | error e => simp at h
          | ok l =>
              injection h with _ hst
              obtain ⟨-, -, hl, hst4⟩ := new_ok_dest _ _ _ _ _ _ hnew
              subst hst4
              subst hl
              rw [← hst]
              rfl

/-! ## Path algebra -/

theorem joinPath_pair (a b : String) : joinPath [a, b] = a ++ "/" ++ b := rfl

theorem initLogPath_eq_specRootPath (home p : String) (t : DateTime) :
    initLogPath home p t = specRootPath home p t := by
  show home ++ "/" ++ ("logs" ++ "/" ++ (p ++ "/" ++ timestampStr t)) =
    home ++ "/logs/" ++ p ++ "/" ++ timestampStr t
  simp only [String.append_assoc]
  congr 1

/-! ## Concrete fixtures for witnesses -/

/-- A concrete stand-in digest for evaluations (the theorems quantify
over the digest function, so any concrete one instantiates them). -/
def md5Len : String → Nat := String.length

/-- A concrete effect oracle: home `/home/u`, a fixed clock, directory
creation and every file creation succeeding. -/
def envDemo : Env :=
  { homeDir := some "/home/u", now := ⟨2026, 10, 11, 9, 8, 7⟩,
    mkdirOk := true, createOk := fun _ => true }

/-- The package state after a successful `Init` under `envDemo`. -/
def stDemo : MgrState := (Init md5Len envDemo MgrState.initial "demo").2

/-! ## Claims -/

/-- **C1.** If `New n` succeeds once, a second `New n` on the resulting
state fails with the duplicate-logger error and leaves the state
unchanged, so at most one `Logger` is ever bound to the filename `n`. -/
theorem new_duplicate_second_call (md5Sum : String → Nat) (env env2 : Env)
    (st st' : MgrState) (n : String) (l : LoggerT)
    (h : New md5Sum env st n = (Except.ok l, st')) :
    New md5Sum env2 st' n = (Except.error LogErr.duplicateLogger, st') := by
  obtain ⟨hen, hco, hl, hst⟩ := new_ok_dest md5Sum env st st' n l h
  subst hst
  simp [New, hen, contains_add_self]

/-- Witness for C1: under the demo oracle, creating `"err"` succeeds and
the immediate second creation fails with the duplicate-logger error. -/
theorem new_duplicate_second_call_witness :
    New md5Len envDemo ((New md5Len envDemo stDemo "err").2) "err" =
      (Except.error LogErr.duplicateLogger, (New md5Len envDemo stDemo "err").2) :=
  new_duplicate_second_call md5Len envDemo envDemo stDemo
    ((New md5Len envDemo stDemo "err").2) "err"
    { filePath := "/home/u/logs/demo/2026-10-11_09-08-07/err.log", tabLevel := 0 } rfl

/-- **C7.** `New` called before `Init` has succeeded fails with the
not-initialized error and returns no `Logger` (the state is unchanged). -/
theorem new_before_init_fails (md5Sum : String → Nat) (env : Env) (st : MgrState)
    (n : String) (h : st.enabled = false) :
    New md5Sum env st n = (Except.error LogErr.notInitialized, st) := by
  simp [New, h]

/-- Witness for C7: at program start, `New "stats"` fails with the
not-initialized error. -/
theorem new_before_init_fails_witness :
    New md5Len envDemo MgrState.initial "stats" =
      (Except.error LogErr.notInitialized, MgrState.initial) :=
  new_before_init_fails md5Len envDemo MgrState.initial "stats" rfl

/-- **C9.** Whenever `New` returns an error — not initialized, duplicate
name, or file-creation failure — the name registry (indeed the whole
package state) is unchanged; the name is registered only on success. -/
theorem new_error_preserves_registry (md5Sum : String → Nat) (env : Env)
    (st st2 : MgrState) (n : String) (e : LogErr)
    (h : New md5Sum env st n = (Except.error e, st2)) :
    st2.fileSet = st.fileSet ∧ st2 = st := by
  have := new_err_dest md5Sum env st st2 n e h
  exact ⟨by rw [this], this⟩

/-- Witness for C9: the duplicate-name failure on `"std"` right after
`Init` leaves the state untouched. -/
theorem new_error_preserves_registry_witness :
    (New md5Len envDemo stDemo "std").2.fileSet = stDemo.fileSet ∧
    (New md5Len envDemo stDemo "std").2 = stDemo :=
  new_error_preserves_registry md5Len envDemo stDemo
    ((New md5Len envDemo stDemo "std").2) "std" LogErr.duplicateLogger rfl

/-- **C6.** A first successful `Init` marks the manager enabled, and a
second `Init` then fails with the already-initialized error and performs
none of the initialization side effects (the state is unchanged). -/
theorem init_second_call_fails (md5Sum : String → Nat) (env env2 : Env)
    (st st' : MgrState) (p p2 : String)
    (h : Init md5Sum env st p = (none, st')) :
    st'.enabled = true ∧
    Init md5Sum env2 st' p2 = (some LogErr.alreadyInitialized, st') := by
  obtain ⟨home, hhome, hst⟩ := init_ok_dest md5Sum env st st' p h
  subst hst
  exact ⟨rfl, by simp [Init, initDoneState]⟩

/-- Witness for C6: after the demo `Init`, a second `Init` fails with the
already-initialized error and changes nothing. -/
theorem init_second_call_fails_witness :
    stDemo.enabled = true ∧
    Init md5Len envDemo stDemo "demo" = (some LogErr.alreadyInitialized, stDemo) :=
  init_second_call_fails md5Len envDemo envDemo MgrState.initial stDemo "demo" "demo" rfl

/-- **C10.** For every string, including the empty one: `contains` is true
immediately after `add` and false immediately after `remove`; the empty
string is tracked by the dedicated flag and leaves the hash table alone. -/
theorem set_roundtrip_laws (md5Sum : String → Nat) (s : SetState) (str : String) :
    (s.add md5Sum str).contains md5Sum str = true ∧
    (s.remove md5Sum str).contains md5Sum str = false ∧
    (s.add md5Sum "").table = s.table ∧
    (s.add md5Sum "").containsEmpty = true ∧
    (s.remove md5Sum "").table = s.table ∧
    (s.remove md5Sum "").containsEmpty = false := by
  refine ⟨contains_add_self md5Sum s str, contains_remove_self md5Sum s str, ?_, ?_, ?_, ?_⟩
  all_goals simp [SetState.add, SetState.remove]

/-- **C3.** From a freshly created `Logger` (tab level 0), no sequence of
`IncTab`/`DecTab`/`SetTab` calls makes `TabLevel` negative; `SetTab (-5)`
yields level 0; `SetTab` clamps every negative input to 0. -/
theorem tabLevel_never_negative (l0 : LoggerT) (h0 : l0.tabLevel = 0) :
    (∀ ops : List TabOp, 0 ≤ (runTabOps l0 ops).TabLevel) ∧
    (l0.SetTab (-5)).TabLevel = 0 ∧
    ∀ (l : LoggerT) (i : Int), i < 0 → (l.SetTab i).TabLevel = 0 := by
  refine ⟨?_, ?_, ?_⟩
  · intro ops
    exact (runTabOps_inRange ops l0 (by simp [tabInRange, h0])).1
  · norm_num [LoggerT.SetTab, LoggerT.TabLevel]
  · intro l i hi
    simp [LoggerT.SetTab, LoggerT.TabLevel, hi]

/-- Witness for C3: a concrete operation sequence keeps the level
non-negative, and `SetTab (-5)` and `SetTab (-7)` both land on 0. -/
theorem tabLevel_never_negative_witness :
    0 ≤ (runTabOps { filePath := "std", tabLevel := 0 }
        [TabOp.inc, TabOp.dec, TabOp.dec, TabOp.set (-5)]).TabLevel ∧
    (LoggerT.SetTab { filePath := "std", tabLevel := 0 } (-5)).TabLevel = 0 ∧
    (LoggerT.SetTab { filePath := "x", tabLevel := 3 } (-7)).TabLevel = 0 :=
  ⟨(tabLevel_never_negative { filePath := "std", tabLevel := 0 } rfl).1
      [TabOp.inc, TabOp.dec, TabOp.dec, TabOp.set (-5)],
   (tabLevel_never_negative { filePath := "std", tabLevel := 0 } rfl).2.1,
   (tabLevel_never_negative { filePath := "std", tabLevel := 0 } rfl).2.2
      { filePath := "x", tabLevel := 3 } (-7) (by norm_num)⟩

/-- **C2 (code bug evidence).** `print` never prefixes the indentation:
at tab level 2 the message written for `Print("M")` is `"[M]"`, with no
tab character at all, although the `tabs` helper would produce `"\t\t"`;
indeed the written message does not depend on the tab level. -/
theorem print_ignores_indentation :
    LoggerT.PrintMsg { filePath := "stats", tabLevel := 2 } [GoAtom.str "M"] = "[M]" ∧
    (LoggerT.PrintMsg { filePath := "stats", tabLevel := 2 }
        [GoAtom.str "M"]).data.contains '\t' = false ∧
    LoggerT.tabs { filePath := "stats", tabLevel := 2 } = "\t\t" ∧
    ∀ (l : LoggerT) (k : Int) (v : List GoAtom),
      LoggerT.PrintMsg { l with tabLevel := k } v = l.PrintMsg v :=
  ⟨by decide, by decide, by decide, fun _ _ _ => rfl⟩

/-- **C4 (code bug evidence).** Every package-level convenience call
builds the same message as the `Logger` method on the standard logger —
except `Fatalf`: the package level spreads the arguments
(`fmt.Sprintf(format, v...)`, giving `"42"` for `%d`/42) while the
method passes the slice unspread (`fmt.Sprintf(format, v)`, giving
`"[42]"`), contradicting its own doc comment. -/
theorem package_method_fatalf_divergence :
    pkgFatalfMsg std0 "%d" [GoAtom.int 42] = "42" ∧
    LoggerT.FatalfMsg std0 "%d" [GoAtom.int 42] = "[42]" ∧
    (∀ (std : LoggerT) (v : List GoAtom), pkgPrintMsg std v = std.PrintMsg v) ∧
    (∀ (std : LoggerT) (format : String) (v : List GoAtom),
      pkgPrintfMsg std format v = std.PrintfMsg format v) ∧
    (∀ (std : LoggerT) (v : List GoAtom), pkgPrintlnMsg std v = std.PrintlnMsg v) ∧
    (∀ (std : LoggerT) (v : List GoAtom), pkgFatalMsg std v = std.FatalMsg v) ∧
    (∀ (std : LoggerT) (v : List GoAtom), pkgFatallnMsg std v = std.FatallnMsg v) ∧
    (∀ (std : LoggerT) (v : List GoAtom), pkgPanicMsg std v = std.PanicMsg v) ∧
    (∀ (std : LoggerT) (format : String) (v : List GoAtom),
      pkgPanicfMsg std format v = std.PanicfMsg format v) ∧
    (∀ (std : LoggerT) (v : List GoAtom), pkgPaniclnMsg std v = std.PaniclnMsg v) :=
  ⟨by decide, by decide, fun _ _ => rfl, fun _ _ _ => rfl, fun _ _ => rfl, fun _ _ => rfl,
   fun _ _ => rfl, fun _ _ => rfl, fun _ _ _ => rfl, fun _ _ => rfl⟩

/-- **C5 (code bug evidence).** `Printf` and `Println` format as claimed
(`fmt.Sprintf` / `fmt.Sprintln` over the spread arguments), but `Print`
hands the argument slice to `fmt.Sprint` as a single operand: for the
arguments `"a", "b"` it writes `"[a b]"` where the manner of `fmt.Print`
produces `"ab"`. -/
theorem print_formatting_divergence :
    LoggerT.PrintMsg std0 [GoAtom.str "a", GoAtom.str "b"] = "[a b]" ∧
    goSprint [GoVal.atom (GoAtom.str "a"), GoVal.atom (GoAtom.str "b")] = "ab" ∧
    (∀ (l : LoggerT) (v : List GoAtom), l.PrintMsg v = goSprint [GoVal.slice v]) ∧
    (∀ (l : LoggerT) (format : String) (v : List GoAtom),
      l.PrintfMsg format v = goSprintf format (v.map GoVal.atom)) ∧
    (∀ (l : LoggerT) (v : List GoAtom), l.PrintlnMsg v = goSprintln (v.map GoVal.atom)) :=
  ⟨by decide, by decide, fun _ _ => rfl, fun _ _ _ => rfl, fun _ _ => rfl⟩

/-- **C8.** A successful `Init` sets the log path to
`<home>/logs/<programName>/<YYYY-MM-DD_HH-MM-SS>`, and every logger a
subsequent successful `New` returns is bound to `<root>/<name>.log`,
matching the documented filesystem layout. -/
theorem init_documented_layout (md5Sum : String → Nat) (env : Env)
    (st st' : MgrState) (p home : String)
    (hHome : env.homeDir = some home)
    (h : Init md5Sum env st p = (none, st')) :
    st'.logPath = specRootPath home p env.now ∧
    ∀ (env2 : Env) (n : String) (l : LoggerT) (st2 : MgrState),
      New md5Sum env2 st' n = (Except.ok l, st2) →
      l.filePath = specLogFilePath home p env.now n := by
  obtain ⟨home2, hhome2, hst⟩ := init_ok_dest md5Sum env st st' p h
  rw [hHome] at hhome2
  injection hhome2 with he
  subst he
  subst hst
  constructor
  · exact initLogPath_eq_specRootPath home p env.now
  · intro env2 n l st2 hnew
    obtain ⟨-, -, hl, -⟩ := new_ok_dest md5Sum env2 _ st2 n l hnew
    subst hl
    show newLogFilePath (initDoneState md5Sum st p home env.now) n = _
    rw [newLogFilePath, joinPath_pair]
    show initLogPath home p env.now ++ "/" ++ (n ++ ".log") = _
    rw [initLogPath_eq_specRootPath, specLogFilePath]
    simp [String.append_assoc]

/-- Witness for C8: under the demo oracle the root is
`/home/u/logs/demo/2026-10-11_09-08-07` and `New "stats"` binds
`/home/u/logs/demo/2026-10-11_09-08-07/stats.log`. -/
theorem init_documented_layout_witness :
    stDemo.logPath = specRootPath "/home/u" "demo" envDemo.now ∧
    ({ filePath := "/home/u/logs/demo/2026-10-11_09-08-07/stats.log",
       tabLevel := 0 } : LoggerT).filePath =
      specLogFilePath "/home/u" "demo" envDemo.now "stats" :=
  ⟨(init_documented_layout md5Len envDemo MgrState.initial stDemo "demo" "/home/u"
      rfl rfl).1,
   (init_documented_layout md5Len envDemo MgrState.initial stDemo "demo" "/home/u"
      rfl rfl).2 envDemo "stats"
      { filePath := "/home/u/logs/demo/2026-10-11_09-08-07/stats.log", tabLevel := 0 }
      (New md5Len envDemo stDemo "stats").2 rfl⟩
